import Mathlib

/-!
Shallow embedding of the `pet7018z` Modbus driver
(`src/pet7018z/pet7018z.py`) and of the composed setup/recovery routine of
the example client (`examples/mqtt/mqtt_client.py`).

The transport boundary (pyModbusTCP's `ModbusClient`) is modelled as an
abstract register transport that stores register/coil writes and serves
reads from the stored values, recording every call in a trace.  Machine
integers become `Nat`/`Int` with explicit bit operations; the floating
point arithmetic of the conversion routine is modelled over `ℚ` (exact
arithmetic on the same formula).
-/

set_option autoImplicit false

namespace Pet7018z

/-- Transport-level Modbus operations, recorded in the trace of a
`Transport` so that theorems can speak about which registers and coils an
operation touches and in which order. -/
inductive MbOp where
  | readHoldingRegisters (addr count : Nat)
  | readInputRegisters (addr count : Nat)
  | writeSingleRegister (addr value : Nat)
  | writeSingleCoil (addr : Nat) (value : Bool)
  | openSession
  deriving DecidableEq, Repr

/-- Register file of the modelled device: holding registers, input
registers and coils, each addressed by a `Nat`. -/
structure ModbusState where
  holding : Nat → Nat
  input : Nat → Nat
  coils : Nat → Bool

/-- Abstract register transport: a register file plus the trace of all
transport calls made so far.  Register writes are stored and reads are
served from the stored values (the "fake transport" of the spec's
testable properties). -/
structure Transport where
  state : ModbusState
  trace : List MbOp

/-- Model of `ModbusClient.read_holding_registers(addr, count)`: returns
`count` stored holding-register values starting at `addr`. -/
def read_holding_registers (t : Transport) (addr count : Nat) : List Nat × Transport :=
  ((List.range count).map (fun i => t.state.holding (addr + i)),
   { t with trace := t.trace ++ [MbOp.readHoldingRegisters addr count] })

/-- Model of `ModbusClient.read_input_registers(addr, count)`. -/
def read_input_registers (t : Transport) (addr count : Nat) : List Nat × Transport :=
  ((List.range count).map (fun i => t.state.input (addr + i)),
   { t with trace := t.trace ++ [MbOp.readInputRegisters addr count] })

/-- Model of `ModbusClient.write_single_register(addr, value)`: the write
is stored so that later reads see it. -/
def write_single_register (t : Transport) (addr value : Nat) : Transport :=
  { state := { t.state with holding := fun a => if a = addr then value else t.state.holding a },
    trace := t.trace ++ [MbOp.writeSingleRegister addr value] }

/-- Model of `ModbusClient.write_single_coil(addr, value)`. -/
def write_single_coil (t : Transport) (addr : Nat) (value : Bool) : Transport :=
  { state := { t.state with coils := fun a => if a = addr then value else t.state.coils a },
    trace := t.trace ++ [MbOp.writeSingleCoil addr value] }

/-- Unit of an analog-input range (`"V"`, `"mA"` or `"degC"` in the
source table). -/
inductive AiUnit where
  | V
  | mA
  | degC
  deriving DecidableEq, Repr

/-- One entry of the `ai_ranges` class attribute:
`{"min": ..., "max": ..., "unit": ...}`.  The float bounds are carried
exactly as rationals. -/
structure AiRange where
  min : ℚ
  max : ℚ
  unit : AiUnit
  deriving DecidableEq, Repr

/-- The `ai_ranges` dict of the `pet7018z` class (pet7018z.py lines
16-38).  Keys 8-13 are absent; looking one of them up is a `KeyError`,
modelled by `none`. -/
def ai_ranges : Nat → Option AiRange
  | 0 => some ⟨-15/1000, 15/1000, .V⟩
  | 1 => some ⟨-50/1000, 50/1000, .V⟩
  | 2 => some ⟨-100/1000, 100/1000, .V⟩
  | 3 => some ⟨-500/1000, 500/1000, .V⟩
  | 4 => some ⟨-1, 1, .V⟩
  | 5 => some ⟨-(25/10), 25/10, .V⟩
  | 6 => some ⟨-20, 20, .mA⟩
  | 7 => some ⟨4, 20, .mA⟩
  | 14 => some ⟨-210, 760, .degC⟩
  | 15 => some ⟨-270, 1372, .degC⟩
  | 16 => some ⟨-270, 400, .degC⟩
  | 17 => some ⟨-270, 1000, .degC⟩
  | 18 => some ⟨0, 1768, .degC⟩
  | 19 => some ⟨0, 1768, .degC⟩
  | 20 => some ⟨0, 1820, .degC⟩
  | 21 => some ⟨-270, 1300, .degC⟩
  | 22 => some ⟨0, 2320, .degC⟩
  | 23 => some ⟨-200, 800, .degC⟩
  | 24 => some ⟨-200, 100, .degC⟩
  | 25 => some ⟨-200, 900, .degC⟩
  | 26 => some ⟨0, 20, .mA⟩
  | _ => none

/-- Model of Python's `hex(n)[2:]`: lowercase hexadecimal digits of `n`
with no prefix (`"0"` for `0`). -/
def pyHex (n : Nat) : List Char :=
  Nat.toDigits 16 n

/-- The `os_version` formatting loop of `get_id` (lines 87-91): each
character of the hex string, dot-separated
(`for i, n in enumerate(s): out += f"{n}"; if i != len(s)-1: out += "."`). -/
def dotJoinDigits (s : List Char) : String :=
  String.join (s.enum.map (fun p =>
    String.mk [p.2] ++ (if p.1 ≠ s.length - 1 then "." else "")))

/-- The `fw_version`/`io_version` formatting loops of `get_id` (lines
94-98 and 101-105): these append `f"{i}"` — the enumeration index — not
the hex digit `n`. -/
def dotJoinIndices (s : List Char) : String :=
  String.join (s.enum.map (fun p =>
    toString p.1 ++ (if p.1 ≠ s.length - 1 then "." else "")))

/-- Model of `pet7018z.get_id` (lines 75-111): reads holding register 559
(model) and input registers 350/351/353 (OS, firmware, I/O version) and
formats the identity string. -/
def get_id (t : Transport) : String × Transport :=
  let p1 := read_holding_registers t 559 1
  let model := String.mk (pyHex (p1.1.headD 0))
  let p2 := read_input_registers p1.2 350 1
  let os_version_fmt := dotJoinDigits (pyHex (p2.1.headD 0))
  let p3 := read_input_registers p2.2 351 1
  let fw_version_fmt := dotJoinIndices (pyHex (p3.1.headD 0))
  let p4 := read_input_registers p3.2 353 1
  let io_version_fmt := dotJoinIndices (pyHex (p4.1.headD 0))
  ("ICP DAS, " ++ model ++ ", " ++ os_version_fmt ++ ", " ++ fw_version_fmt
      ++ ", " ++ io_version_fmt, p4.2)

/-- Model of `pet7018z.reset` (lines 113-118): writes coil 226 true. -/
def reset (t : Transport) : Transport :=
  write_single_coil t 226 true

/-- Model of `pet7018z.set_ai_range` (lines 174-205): writes the range
code to holding register `427 + channel`, with no validation of the
code. -/
def set_ai_range (t : Transport) (channel ai_range : Nat) : Transport :=
  write_single_register t (427 + channel) ai_range

/-- Model of `pet7018z.get_ai_range` (lines 207-241): reads holding
register `427 + channel` and returns element `[0]` of the reply. -/
def get_ai_range (t : Transport) (channel : Nat) : Nat × Transport :=
  let p := read_holding_registers t (427 + channel) 1
  (p.1.headD 0, p.2)

/-- Model of `pet7018z._adc_to_eng` (lines 120-156).  The two's
complement reinterpretation and the re-bias are over `Int`; the final
normalisation is over `ℚ`.  A range code missing from `ai_ranges` is a
`KeyError`, modelled by a `none` result (the transport reads have
already happened and stay in the trace). -/
def adc_to_eng (t : Transport) (channel : Nat) (value : Nat) : Option ℚ × Transport :=
  let value1 : Int :=
    if value &&& (1 <<< (16 - 1)) ≠ 0 then (value : Int) - ((1 <<< 16 : Nat) : Int)
    else (value : Int)
  let value2 : Int := value1 + 32768
  let p := get_ai_range t channel
  ((ai_ranges p.1).map
    (fun r => ((value2 : ℚ) * (r.max - r.min) / ((2 : ℚ) ^ 16 - 1)) + r.min),
   p.2)

/-- Model of `pet7018z.measure` (lines 243-258): reads input register
`channel` and converts the raw value to engineering units. -/
def measure (t : Transport) (channel : Nat) : Option ℚ × Transport :=
  let p := read_input_registers t channel 1
  adc_to_eng p.2 channel (p.1.headD 0)

/-- Model of `pet7018z.enable_cjc` (lines 260-268): writes coil 627. -/
def enable_cjc (t : Transport) (enable : Bool) : Transport :=
  write_single_coil t 627 enable

/-- Model of `pet7018z.enable_ai` (lines 270-280): writes coil
`595 + channel`. -/
def enable_ai (t : Transport) (channel : Nat) (enable : Bool) : Transport :=
  write_single_coil t (595 + channel) enable

/-- Python exceptions that the modelled code can raise or observe. -/
inductive PyErr where
  | connectError (n : Nat)
  | attributeError
  | valueError (msg : String)
  | otherError (n : Nat)
  deriving DecidableEq, Repr

/-- Model of `pet7018z.set_ai_noise_filter` (lines 282-297): 50 selects
coil value true, 60 selects false, anything else raises `ValueError`
before any write. -/
def set_ai_noise_filter (t : Transport) (plf : Int) : Except PyErr Transport :=
  if plf = 50 then .ok (write_single_coil t 629 true)
  else if plf = 60 then .ok (write_single_coil t 629 false)
  else .error (.valueError "Invalid power line frequency")

/-- Model of `pet7018z.connect` (lines 51-69).  The transport open is the
abstract boundary: `openResult` is the outcome of
`ModbusClient(...).open()` — a fresh transport session, or a transport
failure that propagates.  `connect` checks nothing, retries nothing and,
when `reset_flag` is true, issues the reset coil write as the first
operation after the open. -/
def connect (openResult : Except PyErr Transport) (reset_flag : Bool) :
    Except PyErr Transport :=
  match openResult with
  | .error e => .error e
  | .ok t => .ok (if reset_flag then reset t else t)

/-- Actions the composed setup routine of `mqtt_client.py` performs on
the DAQ object, in order. -/
inductive SetupAction where
  | probeId
  | disconnectDaq
  | connectAttempt
  deriving DecidableEq, Repr

/-- Outcomes of the fallible calls `setup` makes, in program order:
`probe` is the initial `daq.get_id()` identity probe, `disc` is
`daq.disconnect()`, and `conn1`/`conn2` are the first and second call of
`attempt_connect` (each bundles `daq.connect(...)` followed by
`daq.get_id()`; `none` means the call returned normally, `some e` that
it raised `e`). -/
structure SetupOracle where
  probe : Option PyErr
  disc : Option PyErr
  conn1 : Option PyErr
  conn2 : Option PyErr

/-- Model of `setup` in `examples/mqtt/mqtt_client.py` (lines 215-261):
the try/except cascade around the identity probe.  Returns the final
`err` reported upstream (`none` on success) together with the ordered
list of DAQ actions attempted.  The branch structure mirrors the source:
an `AttributeError` from the probe (never connected) leads to one fresh
`attempt_connect`; any other probe failure leads to
`daq.disconnect()` followed by `attempt_connect`, and if that try-block
raises (in either call), one final `attempt_connect`. -/
def setup (o : SetupOracle) : Option PyErr × List SetupAction :=
  match o.probe with
  | none => (none, [SetupAction.probeId])
  | some PyErr.attributeError =>
    match o.conn1 with
    | none => (none, [SetupAction.probeId, SetupAction.connectAttempt])
    | some e => (some e, [SetupAction.probeId, SetupAction.connectAttempt])
  | some _ =>
    match o.disc with
    | some _ =>
      -- `daq.disconnect()` raised: the try-block's `attempt_connect` never
      -- ran, so the except-handler's `attempt_connect` is the first call.
      match o.conn1 with
      | none =>
        (none, [SetupAction.probeId, SetupAction.disconnectDaq, SetupAction.connectAttempt])
      | some e =>
        (some e, [SetupAction.probeId, SetupAction.disconnectDaq, SetupAction.connectAttempt])
    | none =>
      match o.conn1 with
      | none =>
        (none, [SetupAction.probeId, SetupAction.disconnectDaq, SetupAction.connectAttempt])
      | some _ =>
        match o.conn2 with
        | none =>
          (none, [SetupAction.probeId, SetupAction.disconnectDaq,
            SetupAction.connectAttempt, SetupAction.connectAttempt])
        | some e =>
          (some e, [SetupAction.probeId, SetupAction.disconnectDaq,
            SetupAction.connectAttempt, SetupAction.connectAttempt])

/-! Concrete states used by witnesses and counterexamples. -/

/-- Register file with every register zero and every coil false. -/
def zeroState : ModbusState :=
  ⟨fun _ => 0, fun _ => 0, fun _ => false⟩

/-- Fresh transport over the zero register file with an empty trace. -/
def zeroTransport : Transport :=
  ⟨zeroState, []⟩

/-! General evaluation lemmas shared by several claims. -/

/-- Reading back holding register `427 + channel` after `set_ai_range`
returns the code just written. -/
theorem get_ai_range_fst (t : Transport) (channel : Nat) :
    (get_ai_range t channel).1 = t.state.holding (427 + channel) := by
  simp [get_ai_range, read_holding_registers, List.range_succ]

/-- Value component of `measure`, as a closed formula over the stored
registers. -/
theorem measure_fst (t : Transport) (channel : Nat) :
    (measure t channel).1 =
      (ai_ranges (t.state.holding (427 + channel))).map
        (fun r =>
          ((((if t.state.input channel &&& (1 <<< (16 - 1)) ≠ 0
                then (t.state.input channel : Int) - ((1 <<< 16 : Nat) : Int)
                else (t.state.input channel : Int)) + 32768 : Int) : ℚ)
            * (r.max - r.min) / ((2 : ℚ) ^ 16 - 1)) + r.min) := by
  simp [measure, adc_to_eng, get_ai_range, read_input_registers,
    read_holding_registers, List.range_succ]

/-- For a 16-bit value, the source's bit test `value & (1 << 15) != 0`
is exactly "the high bit of `value` is set", i.e. `2 ^ 15 ≤ value`. -/
theorem high_bit_iff (v : Nat) (hv : v ≤ 65535) :
    (v &&& (1 <<< (16 - 1)) ≠ 0) ↔ 2 ^ 15 ≤ v := by
  have h1 : (1 <<< (16 - 1) : Nat) = 2 ^ 15 := by decide
  rw [h1, Nat.and_two_pow]
  rcases h2 : v.testBit 15 with _ | _
  · rw [Nat.testBit_to_div_mod] at h2
    simp only [decide_eq_false_iff_not] at h2
    simp only [Bool.toNat_false, zero_mul, ne_eq, not_true_eq_false, false_iff]
    omega
  · rw [Nat.testBit_to_div_mod] at h2
    simp only [decide_eq_true_eq] at h2
    simp only [Bool.toNat_true, one_mul, ne_eq]
    constructor
    · intro _; omega
    · intro _; positivity

/-- Fresh transport session as produced by a successful open: zero
register file, trace holding the single open call. -/
def openedTransport : Transport :=
  ⟨zeroState, [MbOp.openSession]⟩

/-- C8: for every channel 0-9 and every range code in
{0,1,2,3,4,5,6,7,14..26}, `set_ai_range` followed by `get_ai_range` on
the same channel returns the same code, against a transport that stores
register writes and serves reads from the stored values. -/
theorem C8_set_get_ai_range_roundtrip (t : Transport) (channel code : Nat)
    ( _hch : channel ≤ 9)
    ( _hcode : code ∈ ([0, 1, 2, 3, 4, 5, 6, 7, 14, 15, 16, 17, 18, 19, 20,
      21, 22, 23, 24, 25, 26] : List Nat)) :
    (get_ai_range (set_ai_range t channel code) channel).1 = code := by
  rw [get_ai_range_fst]
  simp [set_ai_range, write_single_register]

/-- Witness for C8 at channel 3 and range code 14. -/
theorem C8_set_get_ai_range_roundtrip_witness :
    3 ≤ 9 ∧
    14 ∈ ([0, 1, 2, 3, 4, 5, 6, 7, 14, 15, 16, 17, 18, 19, 20,
      21, 22, 23, 24, 25, 26] : List Nat) ∧
    (get_ai_range (set_ai_range zeroTransport 3 14) 3).1 = 14 :=
  ⟨by decide, by decide,
    C8_set_get_ai_range_roundtrip zeroTransport 3 14 (by decide) (by decide)⟩

/-- C9: every driver operation addresses exactly the specified register
map: `get_id` reads holding register 559 and input registers 350, 351,
353; the AI range code is read and written at holding register
`427 + channel`; `measure` reads the raw sample at input register
`channel` and the range at `427 + channel`; `reset` writes coil 226;
`enable_cjc` writes coil 627; `enable_ai` writes coil `595 + channel`;
`set_ai_noise_filter` writes coil 629. -/
theorem C9_register_map (t : Transport) (channel code : Nat) (e : Bool) :
    (get_id t).2.trace = t.trace ++
      [MbOp.readHoldingRegisters 559 1, MbOp.readInputRegisters 350 1,
       MbOp.readInputRegisters 351 1, MbOp.readInputRegisters 353 1] ∧
    (set_ai_range t channel code).trace =
      t.trace ++ [MbOp.writeSingleRegister (427 + channel) code] ∧
    (get_ai_range t channel).2.trace =
      t.trace ++ [MbOp.readHoldingRegisters (427 + channel) 1] ∧
    (measure t channel).2.trace =
      t.trace ++ [MbOp.readInputRegisters channel 1,
        MbOp.readHoldingRegisters (427 + channel) 1] ∧
    (reset t).trace = t.trace ++ [MbOp.writeSingleCoil 226 true] ∧
    (enable_cjc t e).trace = t.trace ++ [MbOp.writeSingleCoil 627 e] ∧
    (enable_ai t channel e).trace =
      t.trace ++ [MbOp.writeSingleCoil (595 + channel) e] ∧
    (set_ai_noise_filter t 50).map Transport.trace =
      .ok (t.trace ++ [MbOp.writeSingleCoil 629 true]) ∧
    (set_ai_noise_filter t 60).map Transport.trace =
      .ok (t.trace ++ [MbOp.writeSingleCoil 629 false]) := by
  refine ⟨?_, ?_, ?_, ?_, ?_, ?_, ?_, ?_, ?_⟩ <;>
    simp [get_id, read_holding_registers, read_input_registers, set_ai_range,
      write_single_register, get_ai_range, measure, adc_to_eng, reset,
      enable_cjc, enable_ai, set_ai_noise_filter, write_single_coil,
      Except.map]

/-- C6: `set_ai_noise_filter` writes coil 629 true for 50, false for 60,
and raises `ValueError` for every other power line frequency without
touching the transport (the error result carries no written
transport). -/
theorem C6_set_ai_noise_filter (t : Transport) (plf : Int) :
    set_ai_noise_filter t 50 = .ok (write_single_coil t 629 true) ∧
    (write_single_coil t 629 true).trace =
      t.trace ++ [MbOp.writeSingleCoil 629 true] ∧
    set_ai_noise_filter t 60 = .ok (write_single_coil t 629 false) ∧
    (write_single_coil t 629 false).trace =
      t.trace ++ [MbOp.writeSingleCoil 629 false] ∧
    (plf ≠ 50 → plf ≠ 60 →
      set_ai_noise_filter t plf =
        .error (.valueError "Invalid power line frequency")) := by
  refine ⟨?_, ?_, ?_, ?_, fun h50 h60 => ?_⟩ <;>
    simp_all [set_ai_noise_filter, write_single_coil]

/-- Witness for C6 at `plf = 55`. -/
theorem C6_set_ai_noise_filter_witness :
    (55 : Int) ≠ 50 ∧ (55 : Int) ≠ 60 ∧
    set_ai_noise_filter zeroTransport 55 =
      .error (.valueError "Invalid power line frequency") :=
  ⟨by decide, by decide,
    (C6_set_ai_noise_filter zeroTransport 55).2.2.2.2 (by decide) (by decide)⟩

/-- C5: `connect` propagates a transport open failure unchanged (no
internal retry, no error swallowing); on a successful open with
`reset_flag = true` the reset coil write to 226 is the first and only
operation after the open; and `connect` never issues an additional open
beyond the single one it performs. -/
theorem C5_connect (ferr : PyErr) (t : Transport) (reset_flag : Bool) :
    connect (.error ferr) reset_flag = .error ferr ∧
    (t.trace = [MbOp.openSession] →
      connect (.ok t) true = .ok (reset t) ∧
      (reset t).trace = [MbOp.openSession, MbOp.writeSingleCoil 226 true]) ∧
    (connect (.ok t) reset_flag).map (fun u => u.trace.count MbOp.openSession) =
      .ok (t.trace.count MbOp.openSession) := by
  refine ⟨rfl, fun h => ⟨rfl, ?_⟩, ?_⟩
  · simp [reset, write_single_coil, h]
  · cases reset_flag <;>
      simp [connect, reset, write_single_coil, List.count_append, Except.map]

/-- Witness for C5 on a fresh opened session. -/
theorem C5_connect_witness :
    openedTransport.trace = [MbOp.openSession] ∧
    connect (.ok openedTransport) true = .ok (reset openedTransport) ∧
    (reset openedTransport).trace =
      [MbOp.openSession, MbOp.writeSingleCoil 226 true] :=
  ⟨rfl, ((C5_connect (.connectError 0) openedTransport true).2.1 rfl).1,
    ((C5_connect (.connectError 0) openedTransport true).2.1 rfl).2⟩

/-- C2 as stated is false: `set_ai_range` performs no validation, so
setting reserved code 9 on channel 0 raises nothing and does issue a
register write (the write lands in the trace and in holding register
427). -/
theorem C2_counterexample :
    (set_ai_range zeroTransport 0 9).trace = [MbOp.writeSingleRegister 427 9] ∧
    (set_ai_range zeroTransport 0 9).state.holding 427 = 9 := by
  constructor <;> rfl

/-- C2 amended: `set_ai_range` validates nothing and always issues
exactly one register write of the given code to holding register
`427 + channel`, reporting no error; a reserved code such as 9 only
fails later, when `measure` looks the stored code up in `ai_ranges`
(`KeyError`, modelled as `none`). -/
theorem C2_set_ai_range_no_validation (t : Transport) (channel code : Nat) :
    (set_ai_range t channel code).trace =
      t.trace ++ [MbOp.writeSingleRegister (427 + channel) code] ∧
    (set_ai_range t channel code).state.holding (427 + channel) = code ∧
    ai_ranges 9 = none ∧
    (measure (set_ai_range t channel 9) channel).1 = none := by
  refine ⟨?_, ?_, rfl, ?_⟩
  · simp [set_ai_range, write_single_register]
  · simp [set_ai_range, write_single_register]
  · rw [measure_fst]
    simp [set_ai_range, write_single_register, ai_ranges]

/-- The source's conversion expression rewritten with the claim's
phrasing of the high-bit test (`2 ^ 15 ≤ v`) and of the full-scale
divisor (`65535`), for 16-bit raw values. -/
theorem eng_expr_eq_claim_expr (v : Nat) (hv : v ≤ 65535) (mn mx : ℚ) :
    (((if v &&& (1 <<< (16 - 1)) ≠ 0 then (v : Int) - ((1 <<< 16 : Nat) : Int)
        else (v : Int)) + 32768 : Int) : ℚ) * (mx - mn) / ((2 : ℚ) ^ 16 - 1) + mn
    = (((if 2 ^ 15 ≤ v then (v : Int) - 2 ^ 16
          else (v : Int)) + 32768 : Int) : ℚ) * (mx - mn) / 65535 + mn := by
  have h16 : ((1 <<< 16 : Nat) : Int) = 2 ^ 16 := by decide
  have h65 : ((2 : ℚ) ^ 16 - 1) = 65535 := by norm_num
  rw [h16, h65]
  have hiff := high_bit_iff v hv
  by_cases hb : 2 ^ 15 ≤ v
  · rw [if_pos (hiff.mpr hb), if_pos hb]
  · rw [if_neg (fun hc => hb (hiff.mp hc)), if_neg hb]

/-- C1: for a channel whose stored range code is in the table and a
16-bit raw sample, `measure` returns
`((v2 + 32768) * (max - min) / 65535) + min` where `v2` subtracts
`2 ^ 16` exactly when the high bit of the raw value is set; and the
bounds are looked up at measurement time, so measuring right after
`set_ai_range` with a table code uses that code's bounds. -/
theorem C1_measure_formula (t : Transport) (channel : Nat) (r : AiRange)
    (hr : ai_ranges (t.state.holding (427 + channel)) = some r)
    (hv : t.state.input channel ≤ 65535) :
    (measure t channel).1 =
      some ((((if 2 ^ 15 ≤ t.state.input channel
                 then (t.state.input channel : Int) - 2 ^ 16
                 else (t.state.input channel : Int)) + 32768 : Int) : ℚ)
        * (r.max - r.min) / 65535 + r.min) ∧
    ∀ (code : Nat) (r2 : AiRange), ai_ranges code = some r2 →
      (measure (set_ai_range t channel code) channel).1 =
        some ((((if 2 ^ 15 ≤ t.state.input channel
                   then (t.state.input channel : Int) - 2 ^ 16
                   else (t.state.input channel : Int)) + 32768 : Int) : ℚ)
          * (r2.max - r2.min) / 65535 + r2.min) := by
  constructor
  · rw [measure_fst, hr, Option.map_some']
    rw [eng_expr_eq_claim_expr _ hv]
  · intro code r2 hcode
    rw [measure_fst]
    have h1 : (set_ai_range t channel code).state.holding (427 + channel) = code := by
      simp [set_ai_range, write_single_register]
    have h2 : (set_ai_range t channel code).state.input channel =
        t.state.input channel := by
      simp [set_ai_range, write_single_register]
    rw [h1, h2, hcode, Option.map_some']
    rw [eng_expr_eq_claim_expr _ hv]

/-- The ±1 V range entry (`ai_ranges[4]`). -/
def r4 : AiRange := ⟨-1, 1, .V⟩

/-- Transport whose channel-0 range register holds code 4 (±1 V) and
whose channel-0 input register holds 0. -/
def range4Transport : Transport :=
  ⟨⟨fun a => if a = 427 then 4 else 0, fun _ => 0, fun _ => false⟩, []⟩

/-- Witness for C1 at channel 0 with range code 4 and raw sample 0. -/
theorem C1_measure_formula_witness :
    ai_ranges (range4Transport.state.holding (427 + 0)) = some r4 ∧
    range4Transport.state.input 0 ≤ 65535 ∧
    (measure range4Transport 0).1 =
      some ((((if 2 ^ 15 ≤ range4Transport.state.input 0
                 then (range4Transport.state.input 0 : Int) - 2 ^ 16
                 else (range4Transport.state.input 0 : Int)) + 32768 : Int) : ℚ)
        * (r4.max - r4.min) / 65535 + r4.min) :=
  ⟨rfl, by decide,
    (C1_measure_formula range4Transport 0 r4 rfl (by decide)).1⟩

/-- C3 as stated is false: with the fixed ±1 V range configured, raw
value 0 converts to `1 / 65535` (approximately mid-scale), not to the
range minimum `-1`. -/
theorem C3_counterexample :
    (measure range4Transport 0).1 = some (1 / 65535) ∧
    (1 / 65535 : ℚ) ≠ -1 := by
  have h16 : ((1 <<< 16 : Nat) : Int) = 65536 := by decide
  constructor
  · rw [measure_fst]
    norm_num [range4Transport, zeroState, ai_ranges, h16, Nat.shiftLeft_eq]
  · norm_num

/-- C3 amended: with the fixed range min = -1, max = 1 (code 4), the
conversion maps raw 32768 to min, raw 32767 to max, and raw 0 to
`min + (max - min) * 32768 / 65535 = 1 / 65535`, which is within
floating tolerance of `(min + max) / 2 = 0`. -/
theorem C3_conversion_boundaries (t : Transport) (channel : Nat)
    (hc : t.state.holding (427 + channel) = 4) :
    (t.state.input channel = 32768 → (measure t channel).1 = some (-1)) ∧
    (t.state.input channel = 32767 → (measure t channel).1 = some 1) ∧
    (t.state.input channel = 0 →
      (measure t channel).1 = some (1 / 65535) ∧
      |(1 / 65535 : ℚ) - ((-1) + 1) / 2| < 1 / 10000) := by
  have h16 : ((1 <<< 16 : Nat) : Int) = 65536 := by decide
  have habs : |(1 / 65535 : ℚ) - ((-1) + 1) / 2| < 1 / 10000 := by
    rw [show ((-1 : ℚ) + 1) / 2 = 0 by norm_num, sub_zero,
      abs_of_nonneg (by norm_num : (0 : ℚ) ≤ 1 / 65535)]
    norm_num
  refine ⟨fun hv => ?_, fun hv => ?_, fun hv => ⟨?_, habs⟩⟩ <;>
  · rw [measure_fst, hc, hv]
    norm_num [ai_ranges, h16, Nat.shiftLeft_eq,
      show (32767 : Nat) &&& 32768 = 0 from by decide]

/-- Witness for C3 amended, at channel 0 on `range4Transport` (raw 0). -/
theorem C3_conversion_boundaries_witness :
    range4Transport.state.holding (427 + 0) = 4 ∧
    range4Transport.state.input 0 = 0 ∧
    ((measure range4Transport 0).1 = some (1 / 65535) ∧
      |(1 / 65535 : ℚ) - ((-1) + 1) / 2| < 1 / 10000) :=
  ⟨rfl, rfl, (C3_conversion_boundaries range4Transport 0 rfl).2.2 rfl⟩

/-- Bounds of the normalisation step: for a re-biased value in
`[0, 65535]` and a nondegenerate range, the engineering value lies in
`[min, max]`. -/
theorem eng_expr_bounds (u : Int) (hu0 : 0 ≤ u) (hu1 : u ≤ 65535)
    (mn mx : ℚ) (h : mn < mx) :
    mn ≤ (u : ℚ) * (mx - mn) / ((2 : ℚ) ^ 16 - 1) + mn ∧
    (u : ℚ) * (mx - mn) / ((2 : ℚ) ^ 16 - 1) + mn ≤ mx := by
  have h65 : ((2 : ℚ) ^ 16 - 1) = 65535 := by norm_num
  rw [h65]
  have hq0 : (0 : ℚ) ≤ (u : ℚ) := by exact_mod_cast hu0
  have hq1 : (u : ℚ) ≤ 65535 := by exact_mod_cast hu1
  have hd : (0 : ℚ) ≤ mx - mn := by linarith
  constructor
  · have hnn : (0 : ℚ) ≤ (u : ℚ) * (mx - mn) / 65535 :=
      div_nonneg (mul_nonneg hq0 hd) (by norm_num)
    linarith
  · have hle : (u : ℚ) * (mx - mn) / 65535 ≤ mx - mn := by
      rw [div_le_iff₀ (by norm_num : (0 : ℚ) < 65535)]
      nlinarith
    linarith

/-- C10: every entry of `ai_ranges` satisfies min < max, and for every
16-bit raw value the engineering value produced by `measure` lies in
the closed interval `[min, max]` of the configured range, over exact
arithmetic. -/
theorem C10_eng_within_bounds (code : Nat) (r : AiRange)
    (hr : ai_ranges code = some r) :
    r.min < r.max ∧
    ∀ (t : Transport) (channel : Nat),
      t.state.holding (427 + channel) = code →
      t.state.input channel ≤ 65535 →
      ∃ e : ℚ, (measure t channel).1 = some e ∧ r.min ≤ e ∧ e ≤ r.max := by
  have hlt : r.min < r.max := by
    unfold ai_ranges at hr
    split at hr
    all_goals first
      | exact Option.noConfusion hr
      | (obtain rfl := Option.some.inj hr; norm_num)
  refine ⟨hlt, fun t channel hc hv => ?_⟩
  rw [measure_fst, hc, hr, Option.map_some']
  refine ⟨_, rfl, ?_⟩
  set v := t.state.input channel with hvdef
  have hiff := high_bit_iff v hv
  by_cases hb : v &&& (1 <<< (16 - 1)) ≠ 0
  · rw [if_pos hb]
    have h1 : 2 ^ 15 ≤ v := hiff.mp hb
    refine eng_expr_bounds _ ?_ ?_ r.min r.max hlt
    · have : (32768 : Int) ≤ (v : Int) := by exact_mod_cast h1
      omega
    · have : (v : Int) ≤ 65535 := by exact_mod_cast hv
      omega
  · rw [if_neg hb]
    have h1 : ¬ 2 ^ 15 ≤ v := fun h => hb (hiff.mpr h)
    refine eng_expr_bounds _ ?_ ?_ r.min r.max hlt
    · positivity
    · have h2 : (v : Int) < 32768 := by exact_mod_cast Nat.lt_of_not_le h1
      omega

/-- Witness for C10 at range code 4 on `range4Transport`. -/
theorem C10_eng_within_bounds_witness :
    ai_ranges 4 = some r4 ∧ r4.min < r4.max ∧
    ∃ e : ℚ, (measure range4Transport 0).1 = some e ∧
      r4.min ≤ e ∧ e ≤ r4.max :=
  ⟨rfl, (C10_eng_within_bounds 4 r4 rfl).1,
    (C10_eng_within_bounds 4 r4 rfl).2 range4Transport 0 rfl (by decide)⟩

/-- Transport with model register 0x1a, OS version register 0x12,
firmware version register 0x34 and I/O version register 0x56 (the
identity example of the spec's testable properties). -/
def idTransport : Transport :=
  ⟨⟨fun a => if a = 559 then 26 else 0,
    fun a => if a = 350 then 18 else if a = 351 then 52
      else if a = 353 then 86 else 0,
    fun _ => false⟩, []⟩

/-- C4: at model 0x1a, os 0x12, fw 0x34, io 0x56, `get_id` renders the
model and OS fields as the claim states ("1a" and "1.2") but renders the
firmware and I/O version fields from the enumeration index, producing
"0.1" for both instead of the hex digits "3.4" and "5.6": the claimed
per-hex-digit formatting fails for the firmware and I/O fields. -/
theorem C4_get_id_formats_loop_index :
    (get_id idTransport).1 = "ICP DAS, 1a, 1.2, 0.1, 0.1" ∧
    "ICP DAS, 1a, 1.2, 0.1, 0.1" ≠ "ICP DAS, 1a, 1.2, 3.4, 5.6" := by
  constructor
  · rfl
  · decide

/-- C7: the composed setup routine recovers from a failed identity probe
in the source's cascading order.  For every oracle of call outcomes:
a probe that raises `AttributeError` (never connected) leads to exactly
one fresh connect attempt and nothing else; any other probe failure
leads to exactly one disconnect attempt; a failing disconnect is
followed by exactly one brand-new connect attempt with no second
disconnect; a successful disconnect whose reconnect fails is followed by
one final connect attempt; and a fatal error is reported only when every
connect attempt of the applicable branch failed, carrying the most
recent underlying cause. -/
theorem C7_setup_recovery (o : SetupOracle) :
    (o.probe = none → setup o = (none, [SetupAction.probeId])) ∧
    (o.probe = some .attributeError →
      (setup o).2 = [SetupAction.probeId, SetupAction.connectAttempt] ∧
      ((setup o).1 = none ↔ o.conn1 = none) ∧
      ∀ e, o.conn1 = some e → (setup o).1 = some e) ∧
    (∀ pe, o.probe = some pe → pe ≠ .attributeError →
      ((setup o).2.count SetupAction.disconnectDaq = 1 ∧
       (∀ de, o.disc = some de →
         (setup o).2 = [SetupAction.probeId, SetupAction.disconnectDaq,
           SetupAction.connectAttempt]) ∧
       (o.disc = none → o.conn1 = none →
         (setup o).2 = [SetupAction.probeId, SetupAction.disconnectDaq,
           SetupAction.connectAttempt]) ∧
       (∀ e1, o.disc = none → o.conn1 = some e1 →
         (setup o).2 = [SetupAction.probeId, SetupAction.disconnectDaq,
           SetupAction.connectAttempt, SetupAction.connectAttempt]))) ∧
    (∀ err, (setup o).1 = some err →
      (o.probe = some .attributeError ∧ o.conn1 = some err) ∨
      (∃ pe, o.probe = some pe ∧ pe ≠ .attributeError ∧
        ((o.disc ≠ none ∧ o.conn1 = some err) ∨
         (o.disc = none ∧ o.conn1 ≠ none ∧ o.conn2 = some err)))) := by
  obtain ⟨probe, disc, c1, c2⟩ := o
  rcases probe with _ | pe
  · simp [setup]
  · rcases pe with n | _ | msg | n <;>
      rcases disc with _ | de <;> rcases c1 with _ | e1 <;> rcases c2 with _ | e2 <;>
      simp [setup]

/-- Witness for C7: established-session probe failure whose disconnect
fails and whose single recovery connect succeeds. -/
theorem C7_setup_recovery_witness :
    (setup ⟨some (.otherError 3), some (.otherError 4), none, none⟩).2 =
      [SetupAction.probeId, SetupAction.disconnectDaq,
        SetupAction.connectAttempt] :=
  ((C7_setup_recovery ⟨some (.otherError 3), some (.otherError 4), none, none⟩).2.2.1
    (.otherError 3) rfl (by simp)).2.1 (.otherError 4) rfl

end Pet7018z
